import Mathlib

/-!
Verification of the audio utilities of this repository: the bandpass
denoiser (`src/audio/denoise.py`) and the spectrogram generators
(`src/audio/spectrogram.py` and the legacy `src/spectrogram.py`).

Python floats are modelled as rationals (ℚ), audio buffers as `List ℚ`,
and a raised exception as the `Except.error` branch of `Except`.
The external library `scipy.signal.butter` designs Butterworth filter
coefficients with floating-point transcendental arithmetic; its numeric
output is not modelled.  Instead, every function of the embedding takes
the design routine as an explicit argument `impl : ButterDesign`, and the
theorems below hold for every possible design output, so no property
proved here depends on the coefficients scipy would return.
`scipy.signal.sosfilt` is modelled by its documented algorithm: a cascade
of second-order sections, each applied in a single forward pass in direct
form II transposed with zero initial state.
-/

/-- Embedding of the `DenoiseType` Python `Enum` of `src/audio/denoise.py`.
An `Enum` member is identified by its integer value; the enumeration is
extensible (the code dispatches on equality with `DenoiseType.BASIC` and
rejects every other value), so the model carries the member value. -/
structure DenoiseType where
  val : ℕ
deriving DecidableEq

/-- The sole member of the enumeration today: `BASIC = 1`. -/
def DenoiseType.BASIC : DenoiseType := ⟨1⟩

/-- One second-order section (biquad) of a digital filter, with the
denominator normalized so that `a0 = 1`, as in scipy's `sos` output. -/
structure SOSection where
  b0 : ℚ
  b1 : ℚ
  b2 : ℚ
  a1 : ℚ
  a2 : ℚ
deriving DecidableEq

/-- The two `ValueError`s raised by `src/audio/denoise.py`:
`"Invalid critical frequencies: low=…, high=…"` (with the normalized
cutoffs) and `"Unsupported denoise type: …"` (with the offending mode). -/
inductive DenoiseError where
  | invalidFrequencyRange (low high : ℚ)
  | unsupportedMode (t : DenoiseType)
deriving DecidableEq

/-- The interface of `scipy.signal.butter` as called by `butter_bandpass`:
given the order and the two normalized critical frequencies it returns a
list of second-order sections.  The coefficient values are external
floating-point library output and are left arbitrary. -/
abbrev ButterDesign := ℕ → ℚ → ℚ → List SOSection

/-- A trivial stand-in design (an empty cascade), used only to evaluate
the embedding at concrete inputs. -/
def zeroButter : ButterDesign := fun _ _ _ => []

/-- One step of a biquad in direct form II transposed:
`y = b0*x + z1`, then `z1 := b1*x - a1*y + z2` and `z2 := b2*x - a2*y`.
Returns the output sample and the next state. -/
def biquadStep (s : SOSection) (st : ℚ × ℚ) (x : ℚ) : ℚ × ℚ × ℚ :=
  let y := s.b0 * x + st.1
  (y, s.b1 * x - s.a1 * y + st.2, s.b2 * x - s.a2 * y)

/-- A single second-order section applied forward over a signal,
threading the two-element state, starting from the given state. -/
def biquadFilter (s : SOSection) : ℚ × ℚ → List ℚ → List ℚ
  | _, [] => []
  | st, x :: xs =>
    let r := biquadStep s st x
    r.1 :: biquadFilter s r.2 xs

/-- Model of `scipy.signal.sosfilt`: the cascade of second-order sections,
each section run once, forward, with zero initial state. -/
def sosfilt (sos : List SOSection) (x : List ℚ) : List ℚ :=
  sos.foldl (fun acc s => biquadFilter s (0, 0) acc) x

/-- Embedding of `butter_bandpass` (src/audio/denoise.py, lines 42-61):
`nyquist = 0.5 * fs`, `low = lowcut / nyquist`, `high = highcut / nyquist`;
raises `ValueError` when `low <= 0 or high >= 1`, otherwise returns the
second-order sections designed by `butter(order, [low, high], btype='band',
output='sos')`.  The Python default `order = 18` is passed explicitly by
callers of this embedding. -/
def butter_bandpass (impl : ButterDesign) (lowcut highcut fs : ℚ)
    (order : ℕ) : Except DenoiseError (List SOSection) :=
  let nyquist := (1 / 2 : ℚ) * fs
  let low := lowcut / nyquist
  let high := highcut / nyquist
  if low ≤ 0 ∨ 1 ≤ high then
    Except.error (DenoiseError.invalidFrequencyRange low high)
  else
    Except.ok (impl order low high)

/-- Embedding of `denoise_basic` (src/audio/denoise.py, lines 64-82):
fixed `lowcut = 80.0`, `highcut = 8200.0`, default order 18; designs the
bandpass filter and applies it to the chunk with `sosfilt`.  An exception
raised by `butter_bandpass` propagates. -/
def denoise_basic (impl : ButterDesign) (chunk : List ℚ) (fs : ℚ) :
    Except DenoiseError (List ℚ) :=
  let lowcut : ℚ := 80
  let highcut : ℚ := 8200
  (butter_bandpass impl lowcut highcut fs 18).map (fun sos => sosfilt sos chunk)

/-- Embedding of `denoise` (src/audio/denoise.py, lines 24-39): dispatches
to `denoise_basic` when the mode equals `DenoiseType.BASIC`, and raises
`ValueError("Unsupported denoise type: …")` for every other value.  The
Python default argument is `DenoiseType.BASIC`. -/
def denoise (impl : ButterDesign) (chunk : List ℚ) (fs : ℚ)
    (denoise_type : DenoiseType) : Except DenoiseError (List ℚ) :=
  if denoise_type = DenoiseType.BASIC then
    denoise_basic impl chunk fs
  else
    Except.error (DenoiseError.unsupportedMode denoise_type)

/-- Each biquad section maps a signal to one of the same length. -/
theorem biquadFilter_length (s : SOSection) (st : ℚ × ℚ) (x : List ℚ) :
    (biquadFilter s st x).length = x.length := by
  induction x generalizing st with
  | nil => rfl
  | cons a xs ih => simp [biquadFilter, ih]

/-- The section cascade `sosfilt` preserves the signal length,
whatever the sections are. -/
theorem sosfilt_length (sos : List SOSection) (x : List ℚ) :
    (sosfilt sos x).length = x.length := by
  unfold sosfilt
  induction sos generalizing x with
  | nil => rfl
  | cons s rest ih =>
    simpa [List.foldl] using (ih (biquadFilter s (0, 0) x)).trans
      (biquadFilter_length s (0, 0) x)

/-- C1: the guard of `butter_bandpass` only tests `low <= 0 or high >= 1`;
with `lowcut = 200`, `highcut = 100`, `fs = 16000` the normalized cutoffs
are `low = 1/40 > 0` and `high = 1/80 < 1`, so the reversed pair
`lowcut > highcut` passes the guard and the design proceeds, contradicting
the function's own error message, which demands `0 < low < high < 1`. -/
theorem C1_guard_accepts_reversed_cutoffs :
    butter_bandpass zeroButter 200 100 16000 18 = Except.ok [] := by
  simp only [butter_bandpass, zeroButter]
  norm_num

/-- C2: denoising any chunk (a 200 Hz sine included) in mode BASIC at
sample rate 16000 Hz raises `ValueError` instead of returning a filtered
buffer: the fixed highcut 8200 exceeds the Nyquist frequency 8000, so the
normalized `high = 41/40 >= 1` trips the guard before any filtering. -/
theorem C2_basic_raises_at_16k :
    denoise zeroButter [0, 1, 0, -1] 16000 DenoiseType.BASIC =
      Except.error (DenoiseError.invalidFrequencyRange (1 / 100) (41 / 40)) := by
  simp only [denoise, denoise_basic, butter_bandpass, zeroButter]
  norm_num [Except.map]

/-- C3: for every chunk and every sampling rate `0 < fs <= 16400`, BASIC
denoising raises the invalid-frequency-range `ValueError`, because the
fixed highcut 8200 divided by the Nyquist frequency `fs / 2` is at least 1;
in particular BASIC denoising never succeeds at 8000 Hz or 16000 Hz. -/
theorem C3_basic_denoise_fails_at_low_rates (impl : ButterDesign)
    (chunk : List ℚ) (fs : ℚ) (hpos : 0 < fs) (hle : fs ≤ 16400) :
    denoise impl chunk fs DenoiseType.BASIC =
      Except.error (DenoiseError.invalidFrequencyRange
        (80 / ((1 / 2 : ℚ) * fs)) (8200 / ((1 / 2 : ℚ) * fs))) := by
  have hh : (80 : ℚ) / ((1 / 2 : ℚ) * fs) ≤ 0 ∨
      (1 : ℚ) ≤ (8200 : ℚ) / ((1 / 2 : ℚ) * fs) := by
    right
    rw [le_div_iff₀ (by positivity)]
    linarith
  simp only [denoise, denoise_basic, butter_bandpass, if_pos rfl]
  rw [if_pos hh]
  rfl

/-- Witness for C3 at the canonical speech rate 16000 Hz. -/
theorem C3_witness :
    denoise zeroButter [0, 1, 0, -1] 16000 DenoiseType.BASIC =
      Except.error (DenoiseError.invalidFrequencyRange
        (80 / ((1 / 2 : ℚ) * 16000)) (8200 / ((1 / 2 : ℚ) * 16000))) :=
  C3_basic_denoise_fails_at_low_rates zeroButter [0, 1, 0, -1] 16000
    (by norm_num) (by norm_num)

/-- C4: for every positive sampling rate, whenever `lowcut <= 0` or
`highcut >= fs / 2`, the filter design `butter_bandpass` used by `denoise`
raises the invalid-frequency-range `ValueError`. -/
theorem C4_design_rejects_out_of_range (impl : ButterDesign)
    (lowcut highcut fs : ℚ) (order : ℕ) (hfs : 0 < fs)
    (h : lowcut ≤ 0 ∨ fs / 2 ≤ highcut) :
    butter_bandpass impl lowcut highcut fs order =
      Except.error (DenoiseError.invalidFrequencyRange
        (lowcut / ((1 / 2 : ℚ) * fs)) (highcut / ((1 / 2 : ℚ) * fs))) := by
  have hg : lowcut / ((1 / 2 : ℚ) * fs) ≤ 0 ∨
      (1 : ℚ) ≤ highcut / ((1 / 2 : ℚ) * fs) := by
    rcases h with h | h
    · exact Or.inl (div_nonpos_iff.mpr (Or.inr ⟨h, by positivity⟩))
    · refine Or.inr ?_
      rw [le_div_iff₀ (by positivity)]
      linarith
  simp only [butter_bandpass]
  rw [if_pos hg]

/-- Witness for C4 at `lowcut = 0`, `highcut = 100`, `fs = 1000`. -/
theorem C4_witness :
    butter_bandpass zeroButter 0 100 1000 18 =
      Except.error (DenoiseError.invalidFrequencyRange
        (0 / ((1 / 2 : ℚ) * 1000)) (100 / ((1 / 2 : ℚ) * 1000))) :=
  C4_design_rejects_out_of_range zeroButter 0 100 1000 18 (by norm_num)
    (Or.inl (by norm_num))

/-- C5: `denoise` dispatches mode BASIC to `denoise_basic`, and raises
the unsupported-mode `ValueError` for every mode value other than BASIC
(the enumeration is extensible; only BASIC is handled today). -/
theorem C5_mode_dispatch (impl : ButterDesign) (chunk : List ℚ) (fs : ℚ)
    (t : DenoiseType) :
    denoise impl chunk fs DenoiseType.BASIC = denoise_basic impl chunk fs ∧
    (t ≠ DenoiseType.BASIC →
      denoise impl chunk fs t =
        Except.error (DenoiseError.unsupportedMode t)) := by
  constructor
  · simp [denoise]
  · intro h
    simp [denoise, h]

/-- Witness for C5 at a hypothetical extension member with value 2. -/
theorem C5_witness :
    denoise zeroButter [1] 44100 DenoiseType.BASIC =
      denoise_basic zeroButter [1] 44100 ∧
    denoise zeroButter [1] 44100 ⟨2⟩ =
      Except.error (DenoiseError.unsupportedMode ⟨2⟩) := by
  have h := C5_mode_dispatch zeroButter [1] 44100 ⟨2⟩
  exact ⟨h.1, h.2 (by decide)⟩

/-- C6: whenever the fixed cutoffs of BASIC denoising are valid for the
sampling rate, i.e. `0 < 80 < 8200 < fs / 2` (so `16400 < fs`), `denoise`
returns (does not raise) a buffer of exactly the input's length, and that
buffer is exactly the forward-filtered samples — no renormalization.  The
sampling rate is only read, never modified.  This holds for every possible
coefficient output of the external design routine. -/
theorem C6_valid_rate_preserves_length (impl : ButterDesign)
    (chunk : List ℚ) (fs : ℚ) (hfs : 16400 < fs) :
    ∃ out, denoise impl chunk fs DenoiseType.BASIC = Except.ok out ∧
      out.length = chunk.length ∧
      out = sosfilt (impl 18 (80 / ((1 / 2 : ℚ) * fs))
        (8200 / ((1 / 2 : ℚ) * fs))) chunk := by
  have hfs0 : (0 : ℚ) < fs := by linarith
  have hg : ¬ ((80 : ℚ) / ((1 / 2 : ℚ) * fs) ≤ 0 ∨
      (1 : ℚ) ≤ (8200 : ℚ) / ((1 / 2 : ℚ) * fs)) := by
    push_neg
    constructor
    · positivity
    · rw [div_lt_one (by positivity)]
      linarith
  refine ⟨_, ?_, sosfilt_length _ chunk, rfl⟩
  simp only [denoise, denoise_basic, butter_bandpass, if_pos rfl]
  rw [if_neg hg]
  rfl

/-- Witness for C6 at `fs = 32000` on a three-sample chunk. -/
theorem C6_witness :
    (16400 : ℚ) < 32000 ∧
    ∃ out, denoise zeroButter [1, 2, 3] 32000 DenoiseType.BASIC =
        Except.ok out ∧
      out.length = ([1, 2, 3] : List ℚ).length ∧
      out = sosfilt (zeroButter 18 (80 / ((1 / 2 : ℚ) * 32000))
        (8200 / ((1 / 2 : ℚ) * 32000))) [1, 2, 3] :=
  ⟨by norm_num,
    C6_valid_rate_preserves_length zeroButter [1, 2, 3] 32000 (by norm_num)⟩

/-- C7: BASIC denoising is exactly the composition the spec describes:
design a bandpass filter at the fixed cutoffs 80 Hz and 8200 Hz with
order 18 (producing a cascade of second-order sections), then apply it to
the chunk with `sosfilt` — a single forward pass of the cascade (not a
zero-phase forward-backward pass). -/
theorem C7_basic_is_fixed_band_forward_sos (impl : ButterDesign)
    (chunk : List ℚ) (fs : ℚ) :
    denoise impl chunk fs DenoiseType.BASIC =
      (butter_bandpass impl 80 8200 fs 18).map
        (fun sos => sosfilt sos chunk) := by
  simp [denoise, denoise_basic]

/-!
Embedding of the spectrogram generators.  The numeric spectrogram values
(STFT, mel filterbank, dB conversion) and the rasterized pixels are
produced by the external libraries librosa, matplotlib and PIL; the glue
code of this repository only selects which library computation runs and
with which parameters.  The embedding therefore records, as data, the
computation each branch of the source requests: the library call made,
its arguments, the figure geometry, the decoration branch taken, and the
final color-mode conversion.
-/

/-- Modelled from the spec: `src/constants.py` is not under `src/` (only
its importers are).  The spec fixes the mel spectrogram's upper frequency
bound at "the project's configured high-frequency cutoff (the same
constant as the denoiser's high cutoff)", and the denoiser's high cutoff
is 8200 Hz. -/
def DENOISE_FREQ_HIGH_CUT : ℚ := 8200

/-- Embedding of `AudioData` as consumed by
`src/audio/spectrogram.py`: the sample buffer and its sample rate. -/
structure AudioData where
  audio_signal : List ℚ
  sample_rate : ℚ
deriving DecidableEq

/-- The time-frequency computation a generator requests from librosa:
either a mel-scaled power spectrogram (`feature.melspectrogram` with the
given FFT size, hop length, mel band count and upper frequency bound) or
a short-time Fourier transform (`librosa.stft`) whose magnitude is taken. -/
inductive SpectrogramComputation where
  | melPower (y : List ℚ) (sr : ℚ) (n_fft hop_length n_mels : ℕ) (fmax : ℚ)
  | stftMag (y : List ℚ) (n_fft hop_length : ℕ)
deriving DecidableEq

/-- The upper frequency bound the requested computation is limited to,
when it has one. -/
def SpectrogramComputation.fmaxBound : SpectrogramComputation → Option ℚ
  | .melPower _ _ _ _ _ fmax => some fmax
  | .stftMag _ _ _ => none

/-- Which decibel conversion the generator applies to the spectrogram:
`librosa.power_to_db(s, ref=np.max)` (power relative to the peak power)
or `librosa.amplitude_to_db(|s|, ref=np.max)` (magnitude relative to the
peak magnitude). -/
inductive DbConversion where
  | powerToDbRefMax
  | amplitudeToDbRefMax
deriving DecidableEq

/-- PIL color modes relevant here; the generators end with
`Image.open(buf).convert('RGB')`. -/
inductive ColorMode where
  | RGB
  | RGBA
  | L
deriving DecidableEq

/-- Number of channels of a PIL color mode. -/
def ColorMode.channels : ColorMode → ℕ
  | .RGB => 3
  | .RGBA => 4
  | .L => 1

/-- Whether a PIL color mode carries an alpha channel. -/
def ColorMode.hasAlpha : ColorMode → Bool
  | .RGB => false
  | .RGBA => true
  | .L => false

/-- The matplotlib figure geometry requested by
`plt.subplots(figsize=(width / dpi, height / dpi), dpi=dpi)`. -/
structure FigureSpec where
  widthInches : ℚ
  heightInches : ℚ
  dpi : ℚ
deriving DecidableEq

/-- Requested canvas width in pixels: inches times dots per inch. -/
def FigureSpec.widthPx (f : FigureSpec) : ℚ := f.widthInches * f.dpi

/-- Requested canvas height in pixels: inches times dots per inch. -/
def FigureSpec.heightPx (f : FigureSpec) : ℚ := f.heightInches * f.dpi

/-- The decoration branch taken by the generator: colorbar plus title
(`show_axis` true) or axes stripped and margins zeroed (`plt.axis('off')`,
`plt.tight_layout(pad=0)`, `plt.subplots_adjust(0, 1, 1, 0)`). -/
inductive Decoration where
  | colorbarAndTitle
  | axisOffFullBleed
deriving DecidableEq

/-- The frequency-axis display scale passed to `librosa.display.specshow`. -/
inductive AxisScale where
  | melScale
  | logScale
deriving DecidableEq

/-- Everything a run of a generator requests and produces, as data: the
library computation, the dB conversion, the figure geometry, the display
scale and bound, the decoration branch, whether the figure is saved with
`bbox_inches='tight', pad_inches=0`, and the final PIL conversion mode. -/
structure SpectrogramImageSpec where
  computation : SpectrogramComputation
  dbConversion : DbConversion
  figure : FigureSpec
  yAxisScale : AxisScale
  displayFmax : Option ℚ
  decoration : Decoration
  saveTightNoPad : Bool
  colorMode : ColorMode
deriving DecidableEq

namespace AudioSpectrogram

/-- Embedding of `gen_spectrogram` (src/audio/spectrogram.py, lines
18-69): `dpi = 100`; mel mode computes `feature.melspectrogram(y, sr,
n_fft=4096, hop_length=512, n_mels=512, fmax=DENOISE_FREQ_HIGH_CUT)` and
`power_to_db(ref=np.max)`, displayed on a mel axis up to
`DENOISE_FREQ_HIGH_CUT`; linear mode computes `stft(y, n_fft=4096,
hop_length=512)` and `amplitude_to_db(|s|, ref=np.max)`, displayed on a
log axis; either way the figure is `width/dpi` by `height/dpi` inches at
`dpi`, saved tight with zero padding and converted to RGB.  The Python
defaults for `width` and `height` (`SPECTROGRAM_WIDTH`,
`SPECTROGRAM_HEIGHT` from the absent `src/constants.py`) are passed
explicitly by callers of this embedding. -/
def gen_spectrogram (audio : AudioData) (mel : Bool) (show_axis : Bool)
    (width height : ℚ) : SpectrogramImageSpec :=
  let dpi : ℚ := 100
  { computation :=
      if mel then
        SpectrogramComputation.melPower audio.audio_signal audio.sample_rate
          4096 512 512 DENOISE_FREQ_HIGH_CUT
      else
        SpectrogramComputation.stftMag audio.audio_signal 4096 512
    dbConversion :=
      if mel then DbConversion.powerToDbRefMax
      else DbConversion.amplitudeToDbRefMax
    figure := ⟨width / dpi, height / dpi, dpi⟩
    yAxisScale := if mel then AxisScale.melScale else AxisScale.logScale
    displayFmax := if mel then some DENOISE_FREQ_HIGH_CUT else none
    decoration :=
      if show_axis then Decoration.colorbarAndTitle
      else Decoration.axisOffFullBleed
    saveTightNoPad := true
    colorMode := ColorMode.RGB }

end AudioSpectrogram

namespace LegacySpectrogram

/-- Embedding of the legacy `gen_spectrogram` (src/spectrogram.py, lines
26-72): mel-only, `dpi = 100` and a local `fmax = 8000`; computes
`feature.melspectrogram(y, sr, n_fft=4096, hop_length=512, n_mels=512,
fmax=8000)` and `power_to_db(ref=np.max)`; with `show_axis` it displays
on a mel axis with colorbar and title, otherwise axes are stripped and
margins zeroed; the figure is `width/dpi` by `height/dpi` inches at
`dpi`, saved tight with zero padding and converted to RGB.  The
`save_to_file`/`save_path` parameters only add a disk write and do not
affect the returned array, so they are omitted here. -/
def gen_spectrogram (audio_data : List ℚ) (sample_rate : ℚ)
    (show_axis : Bool) (width height : ℚ) : SpectrogramImageSpec :=
  let dpi : ℚ := 100
  let fmax : ℚ := 8000
  { computation :=
      SpectrogramComputation.melPower audio_data sample_rate 4096 512 512 fmax
    dbConversion := DbConversion.powerToDbRefMax
    figure := ⟨width / dpi, height / dpi, dpi⟩
    yAxisScale := AxisScale.melScale
    displayFmax := some fmax
    decoration :=
      if show_axis then Decoration.colorbarAndTitle
      else Decoration.axisOffFullBleed
    saveTightNoPad := true
    colorMode := ColorMode.RGB }

end LegacySpectrogram

/-- C8 counterexample: the legacy generator (src/spectrogram.py) bounds
its mel spectrogram at a local `fmax = 8000`, not at the project's
configured high-frequency cutoff `DENOISE_FREQ_HIGH_CUT = 8200`, so the
claim is false for it at this concrete input. -/
theorem C8_counterexample :
    (LegacySpectrogram.gen_spectrogram [0] 16000 false 400
      300).computation.fmaxBound ≠ some DENOISE_FREQ_HIGH_CUT := by
  decide

/-- C8 (amended): in mel mode the generator of `src/audio/spectrogram.py`
computes a mel power spectrogram with FFT size 4096, hop length 512 and
512 mel bands bounded at `DENOISE_FREQ_HIGH_CUT`, which equals the
denoiser's high cutoff 8200 Hz, and converts power to dB relative to the
peak; the legacy generator of `src/spectrogram.py` uses the same FFT, hop
and mel-band parameters and the same dB conversion but bounds the
spectrogram at a hard-coded 8000 Hz instead of the configured cutoff. -/
theorem C8_mel_parameters (audio : AudioData) (show_axis : Bool)
    (w h : ℚ) (y : List ℚ) (sr : ℚ) (sax : Bool) (w2 h2 : ℚ) :
    (AudioSpectrogram.gen_spectrogram audio true show_axis w h).computation =
      SpectrogramComputation.melPower audio.audio_signal audio.sample_rate
        4096 512 512 DENOISE_FREQ_HIGH_CUT ∧
    (AudioSpectrogram.gen_spectrogram audio true show_axis w h).dbConversion =
      DbConversion.powerToDbRefMax ∧
    DENOISE_FREQ_HIGH_CUT = 8200 ∧
    (LegacySpectrogram.gen_spectrogram y sr sax w2 h2).computation =
      SpectrogramComputation.melPower y sr 4096 512 512 8000 ∧
    (LegacySpectrogram.gen_spectrogram y sr sax w2 h2).dbConversion =
      DbConversion.powerToDbRefMax := by
  refine ⟨rfl, rfl, rfl, rfl, rfl⟩

/-- C9: for every input buffer, in both mel and linear mode and with or
without axes, `gen_spectrogram` converts the rendered figure to the PIL
`RGB` mode — three channels, no alpha — and the requested canvas is
exactly `width` by `height` pixels (`width / dpi` by `height / dpi`
inches at `dpi` dots per inch). -/
theorem C9_rgb_and_requested_size (audio : AudioData) (mel show_axis : Bool)
    (w h : ℚ) :
    (AudioSpectrogram.gen_spectrogram audio mel show_axis w h).colorMode =
      ColorMode.RGB ∧
    (AudioSpectrogram.gen_spectrogram audio mel show_axis w
      h).colorMode.channels = 3 ∧
    (AudioSpectrogram.gen_spectrogram audio mel show_axis w
      h).colorMode.hasAlpha = false ∧
    (AudioSpectrogram.gen_spectrogram audio mel show_axis w
      h).figure.widthPx = w ∧
    (AudioSpectrogram.gen_spectrogram audio mel show_axis w
      h).figure.heightPx = h := by
  refine ⟨rfl, rfl, rfl, ?_, ?_⟩
  · show w / 100 * 100 = w
    rw [div_mul_cancel₀]
    norm_num
  · show h / 100 * 100 = h
    rw [div_mul_cancel₀]
    norm_num
